import Mathlib

/-!
Verification development for the poly-iac-mcp adapter registry and dispatch
engine.  The repository ships two entry points:

  * src/index.js with src/adapters/terraform.js — a plain JavaScript server:
    a list of adapters, a flat tool collection, and a dispatch loop that
    scans adapters in order for the first tool of a given name.
  * src/main.js with the ReScript adapters (Terraform.res, Pulumi.res) — a
    registry that connects every adapter, merges tool dictionaries with
    later assignments overriding earlier ones, and registers each merged
    tool with the MCP server.

The definitions below are shallow embeddings of those files.  External
process execution is modelled by an oracle (binary name and argument vector
to exit code / stdout / stderr); every spawn that the code performs is
recorded in an explicit trace so that claims about "no process is invoked"
are statements about that trace.
-/

/-- JavaScript / JSON values as they flow through tool arguments. -/
inductive JVal where
  | jStr : String → JVal
  | jBool : Bool → JVal
  | jNum : Int → JVal
  | jNull : JVal
  | jObj : List (String × JVal) → JVal

/-- Argument mapping delivered with a tool call (a JS object / ReScript
dict).  A key that is absent models the JS value undefined. -/
abbrev Args := List (String × JVal)

/-- Property lookup on an argument object; none models undefined. -/
def Args.get? (a : Args) (k : String) : Option JVal :=
  (a.find? (fun p => p.1 == k)).map (fun p => p.2)

/-- The JS String() conversion, as applied by the Deno.Command boundary to
each element of the argument vector and by template interpolation. -/
def JVal.toJsString : JVal → String
  | .jStr s => s
  | .jBool b => if b then "true" else "false"
  | .jNum n => toString n
  | .jNull => "null"
  | .jObj _ => "[object Object]"

/-- String() on a possibly-undefined value: String(undefined) is the
literal text undefined. -/
def jsToString : Option JVal → String
  | none => "undefined"
  | some v => v.toJsString

/-- JavaScript truthiness of a present value. -/
def JVal.truthy : JVal → Bool
  | .jStr s => !s.isEmpty
  | .jBool b => b
  | .jNum n => n != 0
  | .jNull => false
  | .jObj _ => true

/-- JavaScript truthiness where none models undefined (falsy). -/
def truthyOpt : Option JVal → Bool
  | none => false
  | some v => v.truthy

/-- Object.entries as used for the vars loop of terraform_plan: objects
yield their key/value pairs, strings yield index/character pairs, other
primitives yield nothing (null and undefined are unreachable behind the
truthiness guard in the source). -/
def jsEntries : JVal → List (String × JVal)
  | .jObj kvs => kvs
  | .jStr s => s.toList.enum.map (fun p => (toString p.1, JVal.jStr (String.mk [p.2])))
  | _ => []

/-- Outcome of one external process execution. -/
structure ProcOut where
  code : Int
  stdout : String
  stderr : String
deriving DecidableEq

/-- The external world: what running a given binary with a given argument
vector produces.  The binaries the adapters resolve are assumed spawnable;
detection of missing binaries is modelled separately (see Tf.detectFrom). -/
abbrev Oracle := String → List String → ProcOut

/-- One recorded process invocation: binary name and argument vector. -/
abbrev Spawn := String × List String

/-- The normalized result shape built by terraform.js runCommand:
success, decoded stdout, decoded stderr, exit code. -/
structure ToolResult where
  success : Bool
  output : String
  error : String
  code : Int
deriving DecidableEq

/-- Module-level mutable state of the terraform.js adapter:
let binaryPath = null; let connected = false. -/
structure TfState where
  binaryPath : Option String
  connected : Bool

namespace Tf

/-- detectBinary loop body of terraform.js: try each candidate binary with
a version self-check; a spawn failure (oracle answers none) falls through
to the next candidate. -/
def detectFrom (δ : String → Option ProcOut) : List String → Option String
  | [] => none
  | b :: rest =>
    match δ b with
    | some o => if o.code == 0 then some b else detectFrom δ rest
    | none => detectFrom δ rest

/-- detectBinary of terraform.js: OpenTofu is preferred over Terraform. -/
def detectBinary (δ : String → Option ProcOut) : Option String :=
  detectFrom δ ["tofu", "terraform"]

/-- connect of terraform.js: on detection success set both fields; on
failure binaryPath stays null and connected keeps its previous value
(the source only ever sets connected inside the success branch).  The
second component is the success flag of the returned object. -/
def connect (st : TfState) (δ : String → Option ProcOut) : TfState × Bool :=
  match detectBinary δ with
  | some b => (⟨some b, true⟩, true)
  | none => (⟨none, st.connected⟩, false)

/-- disconnect of terraform.js: clears both fields. -/
def disconnect (_st : TfState) : TfState := ⟨none, false⟩

/-- runCommand of terraform.js: throws when no binary is resolved (modelled
as Except.error with the thrown message), otherwise spawns exactly one
process and normalizes its outcome into a ToolResult. -/
def runCommand (st : TfState) (ω : Oracle) (args : List String) :
    Except String ToolResult × List Spawn :=
  match st.binaryPath with
  | none => (Except.error "Not connected to Terraform/OpenTofu", [])
  | some b =>
    let o := ω b args
    (Except.ok ⟨o.code == 0, o.stdout, o.stderr, o.code⟩, [(b, args)])

/-- Argument vector built by the terraform_apply handler. -/
def applyArgs (autoApprove : Bool) (path : String) : List String :=
  ["apply"] ++ (if autoApprove then ["-auto-approve"] else []) ++ [path]

/-- Argument vector built by the terraform_destroy handler. -/
def destroyArgs (autoApprove : Bool) (path : String) : List String :=
  ["destroy"] ++ (if autoApprove then ["-auto-approve"] else []) ++ [path]

/-- terraform_init handler: destructures path, backend (default true),
upgrade (default false) and pushes flags and then the path. -/
def initHandler (st : TfState) (ω : Oracle) (a : Args) :
    Except String ToolResult × List Spawn :=
  let path := a.get? "path"
  let backend := (a.get? "backend").getD (JVal.jBool true)
  let upgrade := (a.get? "upgrade").getD (JVal.jBool false)
  let cmdArgs := ["init"]
    ++ (if backend.truthy then [] else ["-backend=false"])
    ++ (if upgrade.truthy then ["-upgrade"] else [])
    ++ [jsToString path]
  runCommand st ω cmdArgs

/-- terraform_plan handler: optional -out flag, one -var token per entry of
the vars object, then the path. -/
def planHandler (st : TfState) (ω : Oracle) (a : Args) :
    Except String ToolResult × List Spawn :=
  let path := a.get? "path"
  let out := a.get? "out"
  let vars := a.get? "vars"
  let cmdArgs := ["plan"]
    ++ (if truthyOpt out then ["-out=" ++ jsToString out] else [])
    ++ (if truthyOpt vars then
          (jsEntries (vars.getD JVal.jNull)).map
            (fun kv => "-var=" ++ kv.1 ++ "=" ++ kv.2.toJsString)
        else [])
    ++ [jsToString path]
  runCommand st ω cmdArgs

/-- terraform_apply handler: autoApprove defaults to false. -/
def applyHandler (st : TfState) (ω : Oracle) (a : Args) :
    Except String ToolResult × List Spawn :=
  let path := a.get? "path"
  let autoApprove := (a.get? "autoApprove").getD (JVal.jBool false)
  runCommand st ω (applyArgs autoApprove.truthy (jsToString path))

/-- terraform_destroy handler: autoApprove defaults to false. -/
def destroyHandler (st : TfState) (ω : Oracle) (a : Args) :
    Except String ToolResult × List Spawn :=
  let path := a.get? "path"
  let autoApprove := (a.get? "autoApprove").getD (JVal.jBool false)
  runCommand st ω (destroyArgs autoApprove.truthy (jsToString path))

/-- terraform_output handler: json defaults to true, name pushed when
truthy; the declared path parameter is never used (source comment: Note:
path handling for terraform output). -/
def outputHandler (st : TfState) (ω : Oracle) (a : Args) :
    Except String ToolResult × List Spawn :=
  let nm := a.get? "name"
  let json := (a.get? "json").getD (JVal.jBool true)
  let cmdArgs := ["output"]
    ++ (if json.truthy then ["-json"] else [])
    ++ (if truthyOpt nm then [jsToString nm] else [])
  runCommand st ω cmdArgs

/-- terraform_state_list handler: ignores its arguments entirely and runs
state list. -/
def stateListHandler (st : TfState) (ω : Oracle) (_a : Args) :
    Except String ToolResult × List Spawn :=
  runCommand st ω ["state", "list"]

/-- terraform_validate handler. -/
def validateHandler (st : TfState) (ω : Oracle) (a : Args) :
    Except String ToolResult × List Spawn :=
  runCommand st ω ["validate", jsToString (a.get? "path")]

/-- terraform_fmt handler: check defaults to false. -/
def fmtHandler (st : TfState) (ω : Oracle) (a : Args) :
    Except String ToolResult × List Spawn :=
  let path := a.get? "path"
  let check := (a.get? "check").getD (JVal.jBool false)
  let cmdArgs := ["fmt"]
    ++ (if check.truthy then ["-check"] else [])
    ++ [jsToString path]
  runCommand st ω cmdArgs

end Tf

/-- One property of a JSON-schema properties object of terraform.js. -/
structure ParamSpec where
  type_ : String
  description : String
  default? : Option JVal

/-- inputSchema object of a terraform.js tool. -/
structure InputSchema where
  type_ : String
  properties : List (String × ParamSpec)
  required : List String

/-- A tool entry of the terraform.js tools array, as seen by index.js:
name, description, inputSchema and a handler closed over the adapter
module state and the external world. -/
structure JsTool where
  name : String
  description : String
  inputSchema : InputSchema
  handler : Args → Except String ToolResult × List Spawn

/-- An adapter module as consumed by index.js (only name and tools are
read there). -/
structure JsAdapter where
  name : String
  tools : List JsTool

namespace Tf

/-- Schema of terraform_init. -/
def initSchema : InputSchema :=
  ⟨"object",
   [("path", ⟨"string", "Path to the Terraform configuration directory", none⟩),
    ("backend", ⟨"boolean", "Configure the backend for this configuration", some (JVal.jBool true)⟩),
    ("upgrade", ⟨"boolean", "Upgrade modules and plugins", some (JVal.jBool false)⟩)],
   ["path"]⟩

/-- Schema of terraform_plan. -/
def planSchema : InputSchema :=
  ⟨"object",
   [("path", ⟨"string", "Path to the Terraform configuration directory", none⟩),
    ("out", ⟨"string", "Write plan to a file", none⟩),
    ("vars", ⟨"object", "Variable values", none⟩)],
   ["path"]⟩

/-- Schema of terraform_apply. -/
def applySchema : InputSchema :=
  ⟨"object",
   [("path", ⟨"string", "Path to plan file or configuration directory", none⟩),
    ("autoApprove", ⟨"boolean", "Skip interactive approval", some (JVal.jBool false)⟩)],
   ["path"]⟩

/-- Schema of terraform_destroy. -/
def destroySchema : InputSchema :=
  ⟨"object",
   [("path", ⟨"string", "Path to the Terraform configuration directory", none⟩),
    ("autoApprove", ⟨"boolean", "Skip interactive approval", some (JVal.jBool false)⟩)],
   ["path"]⟩

/-- Schema of terraform_output. -/
def outputSchema : InputSchema :=
  ⟨"object",
   [("path", ⟨"string", "Path to the Terraform configuration directory", none⟩),
    ("name", ⟨"string", "Specific output to retrieve", none⟩),
    ("json", ⟨"boolean", "Output in JSON format", some (JVal.jBool true)⟩)],
   ["path"]⟩

/-- Schema of terraform_state_list; it declares path as required even
though the handler ignores it. -/
def stateListSchema : InputSchema :=
  ⟨"object",
   [("path", ⟨"string", "Path to the Terraform configuration directory", none⟩)],
   ["path"]⟩

/-- Schema of terraform_validate. -/
def validateSchema : InputSchema :=
  ⟨"object",
   [("path", ⟨"string", "Path to the Terraform configuration directory", none⟩)],
   ["path"]⟩

/-- Schema of terraform_fmt. -/
def fmtSchema : InputSchema :=
  ⟨"object",
   [("path", ⟨"string", "Path to the Terraform configuration directory", none⟩),
    ("check", ⟨"boolean", "Check if files are formatted without modifying", some (JVal.jBool false)⟩)],
   ["path"]⟩

/-- terraform_init tool entry. -/
def initTool (st : TfState) (ω : Oracle) : JsTool :=
  ⟨"terraform_init", "Initialize a Terraform/OpenTofu working directory",
   initSchema, initHandler st ω⟩

/-- terraform_plan tool entry. -/
def planTool (st : TfState) (ω : Oracle) : JsTool :=
  ⟨"terraform_plan", "Generate and show an execution plan",
   planSchema, planHandler st ω⟩

/-- terraform_apply tool entry. -/
def applyTool (st : TfState) (ω : Oracle) : JsTool :=
  ⟨"terraform_apply", "Apply infrastructure changes",
   applySchema, applyHandler st ω⟩

/-- terraform_destroy tool entry. -/
def destroyTool (st : TfState) (ω : Oracle) : JsTool :=
  ⟨"terraform_destroy", "Destroy infrastructure managed by Terraform",
   destroySchema, destroyHandler st ω⟩

/-- terraform_output tool entry. -/
def outputTool (st : TfState) (ω : Oracle) : JsTool :=
  ⟨"terraform_output", "Show output values from state",
   outputSchema, outputHandler st ω⟩

/-- terraform_state_list tool entry. -/
def stateListTool (st : TfState) (ω : Oracle) : JsTool :=
  ⟨"terraform_state_list", "List resources in the state",
   stateListSchema, stateListHandler st ω⟩

/-- terraform_validate tool entry. -/
def validateTool (st : TfState) (ω : Oracle) : JsTool :=
  ⟨"terraform_validate", "Validate the configuration files",
   validateSchema, validateHandler st ω⟩

/-- terraform_fmt tool entry. -/
def fmtTool (st : TfState) (ω : Oracle) : JsTool :=
  ⟨"terraform_fmt", "Format configuration files",
   fmtSchema, fmtHandler st ω⟩

/-- The tools array of terraform.js, in source order. -/
def tools (st : TfState) (ω : Oracle) : List JsTool :=
  [initTool st ω, planTool st ω, applyTool st ω, destroyTool st ω,
   outputTool st ω, stateListTool st ω, validateTool st ω, fmtTool st ω]

/-- The terraform adapter module as an index.js adapter value. -/
def adapter (st : TfState) (ω : Oracle) : JsAdapter :=
  ⟨"terraform", tools st ω⟩

end Tf

/-- Decoded content of the single text item of a call envelope.  The JSON
serialization performed by index.js (JSON.stringify of the ToolResult) is
injective, so the envelope carries the result value itself; plain string
payloads (unknown-tool and caught-error messages) are carried verbatim. -/
inductive EnvText where
  | result : ToolResult → EnvText
  | message : String → EnvText
deriving DecidableEq

/-- The response envelope of index.js: one text content item plus the
isError flag (absent on the success path, modelled as false). -/
structure Envelope where
  content : EnvText
  isError : Bool
deriving DecidableEq

namespace IndexJs

/-- The adapter scan of the CallToolRequestSchema handler: the first
adapter whose tools contain the requested name wins. -/
def findTool : List JsAdapter → String → Option JsTool
  | [], _ => none
  | ad :: rest, n =>
    match ad.tools.find? (fun t => t.name == n) with
    | some t => some t
    | none => findTool rest n

/-- The CallToolRequestSchema handler of index.js: scan adapters for the
tool; run its handler inside try/catch; absent tools produce an error
envelope with the exact message Unknown tool: name.  The second component
is the trace of processes spawned while serving the call. -/
def dispatch (ads : List JsAdapter) (n : String) (a : Args) :
    Envelope × List Spawn :=
  match findTool ads n with
  | some t =>
    match t.handler a with
    | (Except.ok r, sp) => (⟨EnvText.result r, false⟩, sp)
    | (Except.error msg, sp) => (⟨EnvText.message ("Error: " ++ msg), true⟩, sp)
  | none => (⟨EnvText.message ("Unknown tool: " ++ n), true⟩, [])

/-- allTools of index.js: the flat concatenation of every configured
adapter's tools, computed once and never filtered by connection state. -/
def allTools (ads : List JsAdapter) : List JsTool :=
  ads.flatMap (fun ad => ad.tools)

/-- Listing entry exposed by the ListToolsRequestSchema handler. -/
structure ToolMeta where
  name : String
  description : String
  inputSchema : InputSchema

/-- The ListToolsRequestSchema handler of index.js. -/
def listTools (ads : List JsAdapter) : List ToolMeta :=
  (allTools ads).map (fun t => ⟨t.name, t.description, t.inputSchema⟩)

/-- The adapters constant of index.js as shipped: every adapter import is
commented out, so the list is empty. -/
def adaptersConfigured : List JsAdapter := []

end IndexJs

/-- JSON.Decode.string of the ReScript adapters. -/
def JVal.asString? : JVal → Option String
  | .jStr s => some s
  | _ => none

/-- JSON.Decode.bool of the ReScript adapters. -/
def JVal.asBool? : JVal → Option Bool
  | .jBool b => some b
  | _ => none

namespace TfRes

/-- runCommand of Terraform.res: with no resolved binary it returns a data
object with success false and the not-connected message (it does not
throw); otherwise it spawns once and returns the normalized object. -/
def runCommand (st : TfState) (ω : Oracle) (args : List String) :
    JVal × List Spawn :=
  match st.binaryPath with
  | none =>
    (JVal.jObj [("success", JVal.jBool false),
                ("error", JVal.jStr "Not connected to Terraform/OpenTofu")], [])
  | some b =>
    let o := ω b args
    (JVal.jObj [("success", JVal.jBool (o.code == 0)),
                ("output", JVal.jStr o.stdout),
                ("error", JVal.jStr o.stderr),
                ("code", JVal.jNum o.code)], [(b, args)])

/-- initHandler of Terraform.res: path defaults to the current directory
when absent or not a string; backend defaults to true; upgrade to false. -/
def initHandler (st : TfState) (ω : Oracle) (a : Args) : JVal × List Spawn :=
  let path := ((a.get? "path").bind JVal.asString?).getD "."
  let backend := ((a.get? "backend").bind JVal.asBool?).getD true
  let upgrade := ((a.get? "upgrade").bind JVal.asBool?).getD false
  let cmdArgs := ["init"]
    ++ (if backend then [] else ["-backend=false"])
    ++ (if upgrade then ["-upgrade"] else [])
    ++ [path]
  runCommand st ω cmdArgs

end TfRes

namespace Pulumi

/-- Initial value of the connected ref of Pulumi.res. -/
def connectedInitial : Bool := false

/-- runPulumiCmd of Pulumi.res: always runs the fixed pulumi binary with
the given arguments — there is no connection or binary check. -/
def runPulumiCmd (ω : Oracle) (args : List String) : ProcOut × List Spawn :=
  (ω "pulumi" args, [("pulumi", args)])

/-- Stack argument extraction shared by the Pulumi handlers. -/
def stackArg (a : Args) : Option String :=
  match a.get? "stack" with
  | some (JVal.jStr s) => some s
  | _ => none

/-- Path argument extraction shared by the Pulumi handlers. -/
def pathArg (a : Args) : String :=
  match a.get? "path" with
  | some (JVal.jStr p) => p
  | _ => "."

/-- Argument vector built by previewHandler of Pulumi.res. -/
def previewArgs (a : Args) : List String :=
  ["preview", "--cwd", pathArg a, "--json"]
  ++ (match stackArg a with
      | some s => ["--stack=" ++ s]
      | none => [])

/-- previewHandler of Pulumi.res: builds the vector and runs it without
consulting the connected ref. -/
def previewHandler (ω : Oracle) (a : Args) : JVal × List Spawn :=
  let (o, sp) := runPulumiCmd ω (previewArgs a)
  (JVal.jObj [("success", JVal.jBool (o.code == 0)),
              ("output", JVal.jStr o.stdout),
              ("error", JVal.jStr o.stderr)], sp)

end Pulumi

/-- A parameter spec of the ReScript adapter tool dictionaries (the shape
produced by stringParam and boolParam of the shared Adapter module). -/
structure MParam where
  type_ : String
  description : String

/-- A tool definition entry of the ReScript tool dictionaries as consumed
by main.js: description, params and a handler.  The handler is modelled at
the dispatch boundary: it either returns a normalized result or throws a
message, and records the processes it spawned. -/
structure MToolDef where
  description : String
  params : List (String × MParam)
  handler : Args → Except String ToolResult × List Spawn

/-- An adapter module as consumed by the main.js startup loop: connectOk
records whether await adapter.connect() resolves (the ReScript adapters
raise an exception when their binary probe fails), connectErr the thrown
message, and tools the Object.entries of its tool dictionary. -/
structure MAdapter where
  name : String
  connectOk : Bool
  connectErr : String
  tools : List (String × MToolDef)

namespace MainJs

/-- JS object assignment allTools[name] = def: an existing key keeps its
position and gets the new value, a new key is appended. -/
def setKey (m : List (String × MToolDef)) (k : String) (v : MToolDef) :
    List (String × MToolDef) :=
  match m with
  | [] => [(k, v)]
  | p :: rest => if p.1 == k then (k, v) :: rest else p :: setKey rest k v

/-- JS object property read. -/
def lookupTable (m : List (String × MToolDef)) (k : String) : Option MToolDef :=
  match m with
  | [] => none
  | p :: rest => if p.1 == k then some p.2 else lookupTable rest k

/-- The inner registration loop of main.js: assign every tool of one
adapter into the accumulated table. -/
def mergeTools (m : List (String × MToolDef)) :
    List (String × MToolDef) → List (String × MToolDef)
  | [] => m
  | t :: ts => mergeTools (setKey m t.1 t.2) ts

/-- The adapter connection loop of main.js: try connect; on success record
the adapter and merge its tools; on failure (connect threw) log and move
on. -/
def registerAllAux (conn : List MAdapter) (m : List (String × MToolDef)) :
    List MAdapter → List MAdapter × List (String × MToolDef)
  | [] => (conn, m)
  | a :: rest =>
    if a.connectOk then registerAllAux (conn ++ [a]) (mergeTools m a.tools) rest
    else registerAllAux conn m rest

/-- registerAll: the connection loop started from empty accumulators,
yielding the connectedAdapters list and the merged allTools table. -/
def registerAll (ads : List MAdapter) :
    List MAdapter × List (String × MToolDef) :=
  registerAllAux [] [] ads

/-- The last tool definition recorded for a name by the successfully
connected adapters, later adapters taking precedence; none when no
successful adapter defines the name.  Characterizes the merged table. -/
def assocLast (ts : List (String × MToolDef)) (k : String) : Option MToolDef :=
  match ts with
  | [] => none
  | t :: rest =>
    match assocLast rest k with
    | some v => some v
    | none => if t.1 == k then some t.2 else none

/-- Last successful definition of a name across an adapter sequence. -/
def lastDef (ads : List MAdapter) (k : String) : Option MToolDef :=
  match ads with
  | [] => none
  | a :: rest =>
    match lastDef rest k with
    | some v => some v
    | none => if a.connectOk then assocLast a.tools k else none

/-- The per-tool callback main.js registers with the MCP server: try the
handler; wrap a resolved result as a text envelope; wrap a thrown message
as an error envelope. -/
def wrap (r : Except String ToolResult × List Spawn) : Envelope × List Spawn :=
  match r with
  | (Except.ok tr, sp) => (⟨EnvText.result tr, false⟩, sp)
  | (Except.error msg, sp) => (⟨EnvText.message ("Error: " ++ msg), true⟩, sp)

/-- Dispatch through the merged table: the MCP server routes a call to the
callback registered for that name, none when no such tool was registered. -/
def dispatch (table : List (String × MToolDef)) (n : String) (a : Args) :
    Option (Envelope × List Spawn) :=
  (lookupTable table n).map (fun t => wrap (t.handler a))

/-- The VERSION constant of main.js. -/
def version : String := "1.2.0"

/-- Observable outcome of the main.js startup sequence. -/
structure StartupOutcome where
  connectedAdapters : List MAdapter
  toolTable : List (String × MToolDef)
  exitCode : Option Int
  stderrLog : List String

/-- The startup sequence of main.js: connect and merge all adapters, then
serve.  main.js contains no exit call of any kind — a failure anywhere is
caught (per adapter in the loop, globally by the final catch with
console.error), so startup never produces a non-zero process exit, and the
stderr log always ends with the four banner lines. -/
def startup (ads : List MAdapter) : StartupOutcome :=
  let r := registerAll ads
  ⟨r.1, r.2, none,
   (ads.filter (fun a => !a.connectOk)).map
     (fun a => "Failed to connect " ++ a.name ++ ": " ++ a.connectErr)
   ++ ["poly-iac-mcp v" ++ version ++ " (STDIO mode)",
       toString r.1.length ++ " adapter(s) connected",
       toString r.2.length ++ " tools registered",
       "Feedback: https://github.com/hyperpolymath/poly-iac-mcp/issues"]⟩

end MainJs

/-- An oracle whose every invocation succeeds with empty output. -/
def oracleOk : Oracle := fun _ _ => ⟨0, "", ""⟩

/-- An oracle whose every invocation fails with exit code 1 and the stderr
text of end-to-end scenario 3. -/
def oracleFail : Oracle := fun _ _ => ⟨1, "", "no such stack"⟩

/-- A concrete tool definition whose handler succeeds with its tag as
output; used to instantiate registry scenarios. -/
def demoTool (tag : String) : MToolDef :=
  ⟨"demo " ++ tag, [], fun _ => (Except.ok ⟨true, tag, "", 0⟩, [])⟩

/-- A concrete tool definition whose handler throws; used to instantiate
the per-call fault path. -/
def throwingTool : MToolDef :=
  ⟨"demo throwing", [], fun _ => (Except.error "boom", [])⟩

/-- A first demonstration adapter registering demo_tool. -/
def adapterAlpha : MAdapter := ⟨"alpha", true, "", [("demo_tool", demoTool "A")]⟩

/-- A second demonstration adapter also registering demo_tool. -/
def adapterBeta : MAdapter := ⟨"beta", true, "", [("demo_tool", demoTool "B")]⟩

/-- The startup scenario where the Terraform.res probe rejects: connect()
raises with the message of its None branch.  Its tool dictionary is never
read by the loop, so it is irrelevant here. -/
def failingTerraform : MAdapter :=
  ⟨"terraform", false, "No Terraform/OpenTofu binary found", []⟩

/-- The startup scenario where the Pulumi.res probe rejects. -/
def failingPulumi : MAdapter := ⟨"pulumi", false, "Pulumi CLI not found", []⟩

/-!
Helper lemmas about the main.js registry and the index.js tool scan.
-/

theorem lookupTable_setKey (m : List (String × MToolDef)) (k : String)
    (v : MToolDef) (k' : String) :
    MainJs.lookupTable (MainJs.setKey m k v) k' =
      if k == k' then some v else MainJs.lookupTable m k' := by
  induction m with
  | nil => simp [MainJs.setKey, MainJs.lookupTable]
  | cons p rest ih =>
    by_cases hpk : p.1 = k <;> by_cases hpk' : p.1 = k' <;> by_cases hkk : k = k' <;>
      simp_all [MainJs.setKey, MainJs.lookupTable]

theorem lookupTable_mergeTools (ts : List (String × MToolDef)) :
    ∀ (m : List (String × MToolDef)) (k : String),
    MainJs.lookupTable (MainJs.mergeTools m ts) k =
      match MainJs.assocLast ts k with
      | some v => some v
      | none => MainJs.lookupTable m k := by
  induction ts with
  | nil => intro m k; simp [MainJs.mergeTools, MainJs.assocLast]
  | cons t rest ih =>
    intro m k
    simp only [MainJs.mergeTools, MainJs.assocLast]
    rw [ih]
    cases h : MainJs.assocLast rest k with
    | some v => simp
    | none =>
      rw [lookupTable_setKey]
      by_cases htk : t.1 = k <;> simp [htk]

theorem registerAllAux_fst (ads : List MAdapter) :
    ∀ (conn : List MAdapter) (m : List (String × MToolDef)),
    (MainJs.registerAllAux conn m ads).1 =
      conn ++ ads.filter (fun a => a.connectOk) := by
  induction ads with
  | nil => intro conn m; simp [MainJs.registerAllAux]
  | cons a rest ih =>
    intro conn m
    cases hc : a.connectOk <;>
      simp [MainJs.registerAllAux, hc, ih, List.filter_cons]

theorem lookupTable_registerAllAux (ads : List MAdapter) :
    ∀ (conn : List MAdapter) (m : List (String × MToolDef)) (k : String),
    MainJs.lookupTable (MainJs.registerAllAux conn m ads).2 k =
      match MainJs.lastDef ads k with
      | some v => some v
      | none => MainJs.lookupTable m k := by
  induction ads with
  | nil => intro conn m k; simp [MainJs.registerAllAux, MainJs.lastDef]
  | cons a rest ih =>
    intro conn m k
    cases hc : a.connectOk with
    | true =>
      simp only [MainJs.registerAllAux, hc, if_true]
      rw [ih]
      cases h : MainJs.lastDef rest k with
      | some v => simp [MainJs.lastDef, h]
      | none =>
        simp only [MainJs.lastDef, h]
        rw [lookupTable_mergeTools]
        cases h2 : MainJs.assocLast a.tools k <;> simp [hc, h2]
    | false =>
      simp only [MainJs.registerAllAux, hc, Bool.false_eq_true, if_false]
      rw [ih]
      cases h : MainJs.lastDef rest k <;> simp [MainJs.lastDef, h, hc]

theorem lookup_registerAll (ads : List MAdapter) (k : String) :
    MainJs.lookupTable (MainJs.registerAll ads).2 k = MainJs.lastDef ads k := by
  rw [MainJs.registerAll, lookupTable_registerAllAux]
  cases MainJs.lastDef ads k <;> simp [MainJs.lookupTable]

theorem assocLast_isSome (ts : List (String × MToolDef)) (k : String) :
    (MainJs.assocLast ts k).isSome = ts.any (fun t => t.1 == k) := by
  induction ts with
  | nil => rfl
  | cons t rest ih =>
    simp only [MainJs.assocLast, List.any_cons]
    cases h : MainJs.assocLast rest k with
    | some v =>
      rw [h] at ih
      rw [← ih]
      simp
    | none =>
      rw [h] at ih
      rw [← ih]
      cases htk : (t.1 == k) <;> simp [htk]

theorem lastDef_isSome (ads : List MAdapter) (k : String) :
    (MainJs.lastDef ads k).isSome =
      ads.any (fun a => a.connectOk && a.tools.any (fun t => t.1 == k)) := by
  induction ads with
  | nil => rfl
  | cons a rest ih =>
    simp only [MainJs.lastDef, List.any_cons]
    cases h : MainJs.lastDef rest k with
    | some v =>
      rw [h] at ih
      rw [← ih]
      simp
    | none =>
      rw [h] at ih
      rw [← ih]
      cases hc : a.connectOk with
      | false => simp [hc]
      | true => simp [hc, assocLast_isSome]

theorem findTool_eq_none (ads : List JsAdapter) (n : String)
    (h : ∀ ad ∈ ads, ∀ t ∈ ad.tools, t.name ≠ n) :
    IndexJs.findTool ads n = none := by
  induction ads with
  | nil => rfl
  | cons ad rest ih =>
    simp only [IndexJs.findTool]
    have h1 : ad.tools.find? (fun t => t.name == n) = none := by
      rw [List.find?_eq_none]
      intro t ht
      simpa using h ad (by simp) t ht
    rw [h1]
    exact ih (fun ad2 hm t ht => h ad2 (by simp [hm]) t ht)

/-!
Claim theorems.
-/

/-- C1, counterexample.  terraform_init declares path as required, yet
dispatching it with an empty argument mapping while the adapter is
connected yields a plain success envelope — not an InvalidArgument error —
and one external process is spawned (the missing path crosses the
Deno.Command boundary as String(undefined), the literal text undefined).
No validation layer exists between the dispatch handler and the tool
handler. -/
theorem terraform_init_missing_path_still_spawns :
    "path" ∈ Tf.initSchema.required ∧
    IndexJs.dispatch [Tf.adapter ⟨some "tofu", true⟩ oracleOk] "terraform_init" [] =
      (⟨EnvText.result ⟨true, "", "", 0⟩, false⟩, [("tofu", ["init", "undefined"])]) :=
  ⟨by decide, rfl⟩

/-- C1, amended.  The dispatch layer performs no argument validation and no
InvalidArgument value exists anywhere in the code: a call omitting a
required parameter is handed to the handler unchanged, and the handler
(whenever a binary is resolved) invokes the process runner — terraform.js
forwards the missing path as JS undefined, stringified at the Deno.Command
boundary, while Terraform.res substitutes its default path, the current
directory. -/
theorem dispatch_performs_no_argument_validation (b : String) (c : Bool) (ω : Oracle) :
    IndexJs.dispatch [Tf.adapter ⟨some b, c⟩ ω] "terraform_init" [] =
      (⟨EnvText.result ⟨(ω b ["init", "undefined"]).code == 0,
                       (ω b ["init", "undefined"]).stdout,
                       (ω b ["init", "undefined"]).stderr,
                       (ω b ["init", "undefined"]).code⟩, false⟩,
       [(b, ["init", "undefined"])]) ∧
    (TfRes.initHandler ⟨some b, c⟩ ω []).2 = [(b, ["init", "."])] :=
  ⟨rfl, rfl⟩

/-- C2.  A process exiting with a non-zero code is delivered as data, not
as a protocol-level error: runCommand normalizes it into a ToolResult with
success false whose error field is the captured stderr, and the dispatch
handler wraps every resolved ToolResult into an envelope whose isError
flag is false, carrying the serialized result as its text content. -/
theorem process_failure_is_data_not_protocol_error :
    (∀ (b : String) (c : Bool) (ω : Oracle) (args : List String),
      (ω b args).code ≠ 0 →
      Tf.runCommand ⟨some b, c⟩ ω args =
        (Except.ok ⟨false, (ω b args).stdout, (ω b args).stderr, (ω b args).code⟩,
         [(b, args)])) ∧
    (∀ (ads : List JsAdapter) (n : String) (a : Args) (t : JsTool)
        (tr : ToolResult) (sp : List Spawn),
      IndexJs.findTool ads n = some t → t.handler a = (Except.ok tr, sp) →
      IndexJs.dispatch ads n a = (⟨EnvText.result tr, false⟩, sp)) := by
  constructor
  · intro b c ω args h
    have hb : ((ω b args).code == 0) = false := beq_eq_false_iff_ne.mpr h
    simp [Tf.runCommand, hb]
  · intro ads n a t tr sp h1 h2
    simp [IndexJs.dispatch, h1, h2]

/-- Witness for C2 at end-to-end scenario 3: the process exits with code 1
and stderr no such stack; the envelope is not marked isError and decodes
to a ToolResult with success false carrying that stderr. -/
theorem process_failure_is_data_witness :
    Tf.runCommand ⟨some "tofu", true⟩ oracleFail ["state", "list"] =
      (Except.ok ⟨false, "", "no such stack", 1⟩, [("tofu", ["state", "list"])]) ∧
    IndexJs.dispatch [Tf.adapter ⟨some "tofu", true⟩ oracleFail]
        "terraform_state_list" [] =
      (⟨EnvText.result ⟨false, "", "no such stack", 1⟩, false⟩,
       [("tofu", ["state", "list"])]) := by
  refine ⟨?_, ?_⟩
  · exact process_failure_is_data_not_protocol_error.1 "tofu" true oracleFail
      ["state", "list"] (by decide)
  · exact process_failure_is_data_not_protocol_error.2
      [Tf.adapter ⟨some "tofu", true⟩ oracleFail] "terraform_state_list" []
      (Tf.stateListTool ⟨some "tofu", true⟩ oracleFail)
      ⟨false, "", "no such stack", 1⟩ [("tofu", ["state", "list"])] rfl rfl

/-- C3.  A call naming a tool that no configured adapter provides yields an
envelope marked as an error whose text is exactly Unknown tool followed by
the requested name, with an empty spawn trace (no Process Runner is
invoked); dispatch is a total function, so the server never fails on such
a call. -/
theorem unknown_tool_error_envelope (ads : List JsAdapter) (n : String) (a : Args)
    (h : ∀ ad ∈ ads, ∀ t ∈ ad.tools, t.name ≠ n) :
    IndexJs.dispatch ads n a =
      (⟨EnvText.message ("Unknown tool: " ++ n), true⟩, []) := by
  simp [IndexJs.dispatch, findTool_eq_none ads n h]

/-- Witness for C3: dispatching a name served by no adapter. -/
theorem unknown_tool_error_envelope_witness :
    IndexJs.dispatch [Tf.adapter ⟨some "tofu", true⟩ oracleOk] "crossplane_apply" [] =
      (⟨EnvText.message ("Unknown tool: " ++ "crossplane_apply"), true⟩, []) := by
  refine unknown_tool_error_envelope _ _ _ ?_
  intro ad had t ht
  simp only [List.mem_singleton] at had
  subst had
  simp only [Tf.adapter, Tf.tools, List.mem_cons, List.not_mem_nil, or_false] at ht
  rcases ht with rfl | rfl | rfl | rfl | rfl | rfl | rfl | rfl <;> decide

/-- C4.  registerAll records exactly the adapters whose connect resolved,
in order, and the merged tool table maps every name to the definition
recorded by the last successful adapter that offers it; in particular a
name is present in the table exactly when some successfully connected
adapter offers it, so a failed adapter is excluded and never prevents the
remaining adapters from being served. -/
theorem registerAll_excludes_failed_adapters (ads : List MAdapter) :
    (MainJs.registerAll ads).1 = ads.filter (fun a => a.connectOk) ∧
    (∀ k : String,
      MainJs.lookupTable (MainJs.registerAll ads).2 k = MainJs.lastDef ads k) ∧
    (∀ k : String,
      (MainJs.lookupTable (MainJs.registerAll ads).2 k).isSome =
        ads.any (fun a => a.connectOk && a.tools.any (fun t => t.1 == k))) := by
  refine ⟨?_, fun k => lookup_registerAll ads k, fun k => ?_⟩
  · rw [MainJs.registerAll, registerAllAux_fst]
    simp
  · rw [lookup_registerAll, lastDef_isSome]

/-- C5, counterexample.  The Pulumi adapter starts not connected, yet
invoking its preview handler spawns the pulumi binary and returns the
normalized output object: the handler performs no connection check and
cannot fail with a NotConnected error. -/
theorem pulumi_handler_spawns_while_disconnected :
    Pulumi.connectedInitial = false ∧
    Pulumi.previewHandler oracleOk [] =
      (JVal.jObj [("success", JVal.jBool true), ("output", JVal.jStr ""),
                  ("error", JVal.jStr "")],
       [("pulumi", ["preview", "--cwd", ".", "--json"])]) :=
  ⟨rfl, rfl⟩

/-- C5, amended.  Only the terraform adapter enforces the not-connected
check: its runCommand fails with the Not connected error and spawns
nothing whenever no binary is resolved, and every terraform tool handler
funnels through it; the Pulumi handlers never consult the connected ref
and always spawn the pulumi binary with the built argument vector. -/
theorem not_connected_check_terraform_only :
    (∀ (c : Bool) (ω : Oracle) (args : List String),
      Tf.runCommand ⟨none, c⟩ ω args =
        (Except.error "Not connected to Terraform/OpenTofu", [])) ∧
    (∀ (c : Bool) (ω : Oracle) (a : Args),
      Tf.initHandler ⟨none, c⟩ ω a =
        (Except.error "Not connected to Terraform/OpenTofu", []) ∧
      Tf.applyHandler ⟨none, c⟩ ω a =
        (Except.error "Not connected to Terraform/OpenTofu", []) ∧
      Tf.stateListHandler ⟨none, c⟩ ω a =
        (Except.error "Not connected to Terraform/OpenTofu", [])) ∧
    (∀ (ω : Oracle) (a : Args),
      (Pulumi.previewHandler ω a).2 = [("pulumi", Pulumi.previewArgs a)]) :=
  ⟨fun _ _ _ => rfl, fun _ _ _ => ⟨rfl, rfl, rfl⟩, fun _ _ => rfl⟩

/-- C6, counterexample.  After disconnect the terraform adapter is no
longer connected, yet the tool listing built by index.js still contains
terraform_init: the listing is the static flatMap of every configured
adapter and is never filtered by connection state. -/
theorem listing_survives_disconnect :
    (Tf.disconnect ⟨some "tofu", true⟩).connected = false ∧
    "terraform_init" ∈
      (IndexJs.listTools [Tf.adapter (Tf.disconnect ⟨some "tofu", true⟩) oracleOk]).map
        (fun m => m.name) :=
  ⟨rfl, by decide⟩

/-- C6, amended.  The tool listing is fixed at configuration time and is
entirely independent of the adapter connection state: listing the
terraform adapter under any two states and worlds yields identical
metadata, and disconnect only clears the module state fields — it removes
nothing from subsequent list results. -/
theorem listing_independent_of_connection_state (st st' : TfState) (ω ω' : Oracle) :
    IndexJs.listTools [Tf.adapter st ω] = IndexJs.listTools [Tf.adapter st' ω'] ∧
    Tf.disconnect st = ⟨none, false⟩ :=
  ⟨rfl, rfl⟩

/-- C7.  When two successfully connected adapters both register a tool
under the same name, the merged table maps that name to the definition of
the later-registered adapter, and dispatch through the table invokes the
later handler. -/
theorem collision_later_registered_wins (a b : MAdapter) (n : String)
    (ta tb : MToolDef) (args : Args)
    (_ha : a.connectOk = true) (hb : b.connectOk = true)
    (_hta : MainJs.assocLast a.tools n = some ta)
    (htb : MainJs.assocLast b.tools n = some tb) :
    MainJs.lookupTable (MainJs.registerAll [a, b]).2 n = some tb ∧
    MainJs.dispatch (MainJs.registerAll [a, b]).2 n args =
      some (MainJs.wrap (tb.handler args)) := by
  have hl : MainJs.lookupTable (MainJs.registerAll [a, b]).2 n = some tb := by
    rw [lookup_registerAll]
    simp [MainJs.lastDef, hb, htb]
  exact ⟨hl, by simp [MainJs.dispatch, hl]⟩

/-- Witness for C7: two adapters registering demo_tool; the table and
dispatch resolve to the definition of the later one. -/
theorem collision_later_registered_wins_witness :
    MainJs.lookupTable (MainJs.registerAll [adapterAlpha, adapterBeta]).2 "demo_tool" =
      some (demoTool "B") ∧
    MainJs.dispatch (MainJs.registerAll [adapterAlpha, adapterBeta]).2 "demo_tool" [] =
      some (⟨EnvText.result ⟨true, "B", "", 0⟩, false⟩, []) := by
  have h := collision_later_registered_wins adapterAlpha adapterBeta "demo_tool"
    (demoTool "A") (demoTool "B") [] rfl rfl rfl rfl
  exact ⟨h.1, h.2.trans rfl⟩

/-- C8, counterexample.  Both configured adapters fail to connect, yet
startup records no process exit at all — main.js contains no exit call and
its final catch only logs — while the stderr log does carry the zero
count diagnostic.  The claimed non-zero process exit does not exist. -/
theorem zero_adapters_no_fatal_exit :
    (MainJs.startup [failingTerraform, failingPulumi]).connectedAdapters.length = 0 ∧
    (MainJs.startup [failingTerraform, failingPulumi]).exitCode = none ∧
    "0 adapter(s) connected" ∈
      (MainJs.startup [failingTerraform, failingPulumi]).stderrLog :=
  ⟨rfl, rfl, by decide⟩

/-- C8, amended.  Startup never produces a process exit code, zero
connected adapters included: it logs the zero count on the error stream
and keeps serving with an empty tool table; and a per-call fault (a
handler that throws) is converted into an error envelope by the per-tool
callback, never exiting the server. -/
theorem startup_never_exits_nonzero :
    (∀ ads : List MAdapter, (MainJs.startup ads).exitCode = none) ∧
    (∀ ads : List MAdapter,
      (MainJs.startup ads).connectedAdapters.length = 0 →
      "0 adapter(s) connected" ∈ (MainJs.startup ads).stderrLog) ∧
    (∀ (table : List (String × MToolDef)) (n : String) (a : Args)
        (t : MToolDef) (msg : String) (sp : List Spawn),
      MainJs.lookupTable table n = some t →
      t.handler a = (Except.error msg, sp) →
      MainJs.dispatch table n a =
        some (⟨EnvText.message ("Error: " ++ msg), true⟩, sp)) := by
  refine ⟨fun ads => rfl, ?_, ?_⟩
  · intro ads h
    have h2 : (MainJs.registerAll ads).1.length = 0 := h
    simp only [MainJs.startup, List.mem_append, List.mem_cons]
    refine Or.inr (Or.inr (Or.inl ?_))
    rw [h2]
    rfl
  · intro table n a t msg sp h1 h2
    simp [MainJs.dispatch, MainJs.wrap, h1, h2]

/-- Witness for C8, amended: the all-failing startup scenario and a
throwing handler. -/
theorem startup_never_exits_nonzero_witness :
    (MainJs.startup [failingTerraform, failingPulumi]).exitCode = none ∧
    "0 adapter(s) connected" ∈
      (MainJs.startup [failingTerraform, failingPulumi]).stderrLog ∧
    MainJs.dispatch [("demo_tool", throwingTool)] "demo_tool" [] =
      some (⟨EnvText.message ("Error: " ++ "boom"), true⟩, []) :=
  ⟨startup_never_exits_nonzero.1 _,
   startup_never_exits_nonzero.2.1 _ rfl,
   startup_never_exits_nonzero.2.2 [("demo_tool", throwingTool)] "demo_tool" []
     throwingTool "boom" [] rfl rfl⟩

/-- C9.  For the apply and destroy tools the built argument vector carries
the auto-approval flag exactly once when autoApprove is true and not at
all when it is false, contains nothing besides the subcommand word, the
optional flag and the path operand (the hypothesis that the path operand
is not itself the literal flag text keeps the count about the flag the
handler appends); and the handlers default autoApprove to false when the
argument is absent and honour it when supplied as true. -/
theorem auto_approve_flag_construction :
    (∀ (b : Bool) (p : String), p ≠ "-auto-approve" →
      (Tf.applyArgs b p).count "-auto-approve" = (if b then 1 else 0) ∧
      (Tf.destroyArgs b p).count "-auto-approve" = (if b then 1 else 0) ∧
      (∀ x ∈ Tf.applyArgs b p, x = "apply" ∨ x = "-auto-approve" ∨ x = p) ∧
      (∀ x ∈ Tf.destroyArgs b p, x = "destroy" ∨ x = "-auto-approve" ∨ x = p)) ∧
    (∀ (st : TfState) (ω : Oracle) (a : Args),
      a.get? "autoApprove" = none →
      Tf.applyHandler st ω a =
        Tf.runCommand st ω (Tf.applyArgs false (jsToString (a.get? "path"))) ∧
      Tf.destroyHandler st ω a =
        Tf.runCommand st ω (Tf.destroyArgs false (jsToString (a.get? "path")))) ∧
    (∀ (st : TfState) (ω : Oracle) (a : Args),
      a.get? "autoApprove" = some (JVal.jBool true) →
      Tf.applyHandler st ω a =
        Tf.runCommand st ω (Tf.applyArgs true (jsToString (a.get? "path"))) ∧
      Tf.destroyHandler st ω a =
        Tf.runCommand st ω (Tf.destroyArgs true (jsToString (a.get? "path")))) := by
  refine ⟨?_, ?_, ?_⟩
  · intro b p hp
    have e4 : (p == "-auto-approve") = false := beq_eq_false_iff_ne.mpr hp
    refine ⟨?_, ?_, ?_, ?_⟩
    · cases b <;> simp [Tf.applyArgs, List.count_cons, e4]
    · cases b <;> simp [Tf.destroyArgs, List.count_cons, e4]
    · intro x hx
      cases b <;> simp [Tf.applyArgs] at hx <;> tauto
    · intro x hx
      cases b <;> simp [Tf.destroyArgs] at hx <;> tauto
  · intro st ω a h
    constructor
    · simp only [Tf.applyHandler, h]
      rfl
    · simp only [Tf.destroyHandler, h]
      rfl
  · intro st ω a h
    constructor
    · simp only [Tf.applyHandler, h]
      rfl
    · simp only [Tf.destroyHandler, h]
      rfl

/-- Witness for C9 at a concrete path and argument mappings. -/
theorem auto_approve_flag_construction_witness :
    (Tf.applyArgs true "./infra").count "-auto-approve" = 1 ∧
    (Tf.destroyArgs false "./infra").count "-auto-approve" = 0 ∧
    Tf.applyHandler ⟨some "tofu", true⟩ oracleOk [("path", JVal.jStr "./infra")] =
      Tf.runCommand ⟨some "tofu", true⟩ oracleOk (Tf.applyArgs false "./infra") ∧
    Tf.destroyHandler ⟨some "tofu", true⟩ oracleOk
        [("path", JVal.jStr "./infra"), ("autoApprove", JVal.jBool true)] =
      Tf.runCommand ⟨some "tofu", true⟩ oracleOk (Tf.destroyArgs true "./infra") := by
  have h1 := auto_approve_flag_construction.1 true "./infra" (by decide)
  have h2 := auto_approve_flag_construction.1 false "./infra" (by decide)
  have h3 := (auto_approve_flag_construction.2.1 ⟨some "tofu", true⟩ oracleOk
    [("path", JVal.jStr "./infra")] rfl).1
  have h4 := (auto_approve_flag_construction.2.2 ⟨some "tofu", true⟩ oracleOk
    [("path", JVal.jStr "./infra"), ("autoApprove", JVal.jBool true)] rfl).2
  exact ⟨h1.1, h2.2.1, h3, h4⟩

/-- C10.  The terraform_state_list handler ignores its argument mapping
entirely: for every arguments value, including any value of the required
path parameter, it runs exactly state list, its spawn trace when a binary
is resolved is that single invocation, and its declared schema does state
path as required. -/
theorem state_list_ignores_path (st : TfState) (ω : Oracle) (a a' : Args)
    (b : String) (c : Bool) :
    Tf.stateListHandler st ω a = Tf.runCommand st ω ["state", "list"] ∧
    Tf.stateListHandler st ω a = Tf.stateListHandler st ω a' ∧
    (Tf.stateListHandler ⟨some b, c⟩ ω a).2 = [(b, ["state", "list"])] ∧
    Tf.stateListSchema.required = ["path"] :=
  ⟨rfl, rfl, rfl, rfl⟩
